import Mathlib

/- Shallow embedding of the AI interviewer backend (Python) in Lean 4.

   Modules mirrored here:
   * backend/agents/evaluator.py    : scoring of the interview analysis
   * backend/agents/intent_guard.py : prompt-injection screening
   * backend/agents/guardrails.py   : appropriateness screening
   * backend/apis/leetcode_api.py   : curated problem bank + remote fetch
   * backend/apis/codeforces_api.py : curated problem bank + remote fetch
   * backend/main.py                : LangGraph workflow orchestration

   Modelling conventions:
   * LLM calls and HTTP fetches are oracles passed as parameters; an
     `Except String` oracle models a call that can raise an exception.
   * Python dicts with fixed key sets become structures; a key that some
     producers omit becomes an `Option` field (reading a missing key with
     `.get(k, d)` becomes `Option.getD`); indexing a missing key becomes an
     `Except.error` (Python `KeyError`).
   * `random.choice(l)` becomes selection `l.getD (pick % l.length) _` for an
     oracle index `pick`.
   * Python floats here only ever hold small decimal constants and their
     sums/products, modelled exactly in `ℚ`; `round(x, 2)` is modelled as
     round-half-to-even at two decimals, as in Python 3.
   * Text is processed on `List Char`; the specific regular expressions used
     by the agents are literal fragments joined by `.*` (plus trailing `s?`,
     absorbed by a following `.*` or end of pattern under `re.search`), so a
     pattern matches iff some newline-free line contains the fragments in
     order; `\b(w1|w2|..)\b` matches iff some alternative occurs with
     non-word characters (or ends of string) adjacent.
-/

/-! ### Character-list text utilities (Python str primitives) -/

/-- Character list of a string literal. -/
def fr (s : String) : List Char := s.toList

/-- After the first occurrence of `pat` in `l`, return the remaining suffix
(`none` when `pat` does not occur).  Used to model `re.search` over literal
fragments. -/
def seekAfter (pat : List Char) : List Char → Option (List Char)
  | [] => if pat.isPrefixOf ([] : List Char) then some [] else none
  | c :: rest =>
    if pat.isPrefixOf (c :: rest) then some ((c :: rest).drop pat.length)
    else seekAfter pat rest

/-- Python `pat in text` (substring containment). -/
def occursIn (pat : List Char) (l : List Char) : Bool :=
  (seekAfter pat l).isSome

/-- Fragments must occur in order, each after the end of the previous one
(the semantics of searching `f1.*f2.*...*fk` inside a newline-free text). -/
def matchFrags : List (List Char) → List Char → Bool
  | [], _ => true
  | f :: fs, l =>
    match seekAfter f l with
    | none => false
    | some rest => matchFrags fs rest

/-- Python `s.split(sep)` for a single-character separator (keeps empties). -/
def splitOnChar (sep : Char) : List Char → List (List Char)
  | [] => [[]]
  | c :: rest =>
    let r := splitOnChar sep rest
    if c = sep then [] :: r
    else
      match r with
      | [] => [[c]]
      | h :: t => (c :: h) :: t

/-- Python `re.search` of a fragment pattern (fragments joined by `.*`): since
`.` does not match a newline and no fragment contains one, a match must lie
within one line. -/
def reSearchFrags (frags : List (List Char)) (text : List Char) : Bool :=
  (splitOnChar '\n' text).any fun line => matchFrags frags line

/-- Python `s.strip()`. -/
def trimChars (l : List Char) : List Char :=
  ((l.dropWhile Char.isWhitespace).reverse.dropWhile Char.isWhitespace).reverse

/-- Helper for `pyWordCount`: the flag records whether we are inside a word. -/
def pyWordCountAux : List Char → Bool → Nat
  | [], _ => 0
  | c :: rest, inWord =>
    if c.isWhitespace then pyWordCountAux rest false
    else (if inWord then 0 else 1) + pyWordCountAux rest true

/-- Python `len(s.split())`: number of maximal whitespace-free runs. -/
def pyWordCount (l : List Char) : Nat := pyWordCountAux l false

/-- Python `s.count(c)` for a single character. -/
def countChar (c : Char) (l : List Char) : Nat :=
  (l.filter fun x => x == c).length

/-- Python `s.upper()` (ASCII, which is all the agents compare against). -/
def upperL (l : List Char) : List Char := l.map Char.toUpper

/-- Python `s.lower()` on a character list. -/
def lowerL (l : List Char) : List Char := l.map Char.toLower

/-- Python `s.lower()`. -/
def pyLower (s : String) : String := String.mk (lowerL s.toList)

/-- Python word character for `\b` boundaries. -/
def isWordChar (c : Char) : Bool := c.isAlphanum || c = '_'

/-- Does `w` occur at the head of `l` with a `\b` boundary on both sides?
`prev` is the character immediately before `l` (none at start of text). -/
def boundedHere (w : List Char) (prev : Option Char) (l : List Char) : Bool :=
  w.isPrefixOf l &&
    (match prev with
     | none => true
     | some p => !isWordChar p) &&
    (match l.drop w.length with
     | [] => true
     | c :: _ => !isWordChar c)

/-- Scan `l` for a `\b w \b` occurrence. -/
def boundedSearchAux (w : List Char) : Option Char → List Char → Bool
  | prev, [] => boundedHere w prev []
  | prev, c :: rest => boundedHere w prev (c :: rest) || boundedSearchAux w (some c) rest

/-- Python `re.search(r"\b w \b", l)` for a literal word `w`. -/
def boundedOccurs (w : List Char) (l : List Char) : Bool :=
  boundedSearchAux w none l

/-- Python `"A|B".split("|")[0].strip().upper()` and the reason part, shared by
both LLM verdict parsers (`SAFE/UNSAFE|reason`, `APPROPRIATE|reason`). -/
def parseVerdict (content : String) : List Char × String :=
  let parts := splitOnChar '|' (trimChars content.toList)
  (upperL (trimChars (parts.headD [])),
   match parts with
   | _ :: r :: _ => String.mk (trimChars r)
   | _ => "No reason provided")

/-! ### Evaluator agent (backend/agents/evaluator.py) -/

namespace Evaluator

/-- One criterion's slice of the LLM analysis JSON. -/
structure CritAnalysis where
  strengths : List String
  areas_for_improvement : List String
  examples : List String
deriving DecidableEq

/-- Default for `analysis.get(criteria, {})`. -/
def emptyCrit : CritAnalysis := ⟨[], [], []⟩

/-- The analysis dictionary: each criterion key may be absent. -/
structure Analysis where
  technical_skills : Option CritAnalysis
  communication : Option CritAnalysis
  problem_approach : Option CritAnalysis
  collaboration : Option CritAnalysis
deriving DecidableEq

/-- `self.evaluation_criteria`: names with weights, in insertion order (the
`aspects` lists are never read by the evaluation code and are omitted). -/
def evaluation_criteria : List (String × ℚ) :=
  [("technical_skills", 0.4), ("communication", 0.25),
   ("problem_approach", 0.2), ("collaboration", 0.15)]

/-- `analysis.get(criteria, {})` for the four fixed criterion names. -/
def lookup_analysis (a : Analysis) (name : String) : CritAnalysis :=
  if name = "technical_skills" then a.technical_skills.getD emptyCrit
  else if name = "communication" then a.communication.getD emptyCrit
  else if name = "problem_approach" then a.problem_approach.getD emptyCrit
  else if name = "collaboration" then a.collaboration.getD emptyCrit
  else emptyCrit

/-- The threshold chain inlined in `_calculate_scores`. -/
def score_from_counts (strengths improvements : Nat) : Nat :=
  if 3 ≤ strengths ∧ improvements ≤ 1 then 5
  else if 2 ≤ strengths ∧ improvements ≤ 2 then 4
  else if 1 ≤ strengths ∧ improvements ≤ 3 then 3
  else if 1 ≤ strengths ∨ improvements ≤ 4 then 2
  else 1

/-- `_get_rating_from_score`. -/
def get_rating_from_score (score : ℚ) : String :=
  if 4.5 ≤ score then "excellent"
  else if 3.5 ≤ score then "good"
  else if 2.5 ≤ score then "satisfactory"
  else if 1.5 ≤ score then "needs_improvement"
  else "inadequate"

/-- Per-criterion entry of the `scores` dict. -/
structure ScoreData where
  score : Nat
  rating : String
  weight : ℚ
  weighted_score : ℚ
deriving DecidableEq

/-- `_calculate_scores`. -/
def calculate_scores (a : Analysis) : List (String × ScoreData) :=
  evaluation_criteria.map fun cw =>
    let ca := lookup_analysis a cw.1
    let strengths := ca.strengths.length
    let improvements := ca.areas_for_improvement.length
    let score := score_from_counts strengths improvements
    (cw.1,
      { score := score,
        rating := get_rating_from_score (score : ℚ),
        weight := cw.2,
        weighted_score := (score : ℚ) * cw.2 })

/-- Round-half-to-even to an integer, as Python `round`. -/
def roundHalfEven (q : ℚ) : ℤ :=
  let f := ⌊q⌋
  let r := q - (f : ℚ)
  if r < 1/2 then f
  else if 1/2 < r then f + 1
  else if f % 2 = 0 then f else f + 1

/-- Python `round(q, 2)`. -/
def pyRound2 (q : ℚ) : ℚ := (roundHalfEven (q * 100) : ℚ) / 100

/-- `_calculate_overall_score`. -/
def calculate_overall_score (scores : List (String × ScoreData)) : ℚ :=
  let total_weighted_score := (scores.map fun p => p.2.weighted_score).sum
  let total_weight := (scores.map fun p => p.2.weight).sum
  if 0 < total_weight then pyRound2 (total_weighted_score / total_weight) else 0

/-- The fields of the final evaluation dict that carry the computed result
(identifiers, timestamps, prose assessment, recommendations and the file
side-effects are not modelled; no claim concerns them). -/
structure EvalReport where
  overall_score : ℚ
  overall_rating : String
  detailed_scores : List (String × ScoreData)
deriving DecidableEq

/-- `evaluate_interview`, parameterised by the analysis the LLM produced. -/
def evaluate_interview (analysis : Analysis) : EvalReport :=
  let scores := calculate_scores analysis
  { overall_score := calculate_overall_score scores,
    overall_rating := get_rating_from_score (calculate_overall_score scores),
    detailed_scores := scores }

/-- The per-criterion counts (strengths, areas_for_improvement) that the claim
says determine the scores. -/
def counts_of (a : Analysis) :
    (Nat × Nat) × (Nat × Nat) × (Nat × Nat) × (Nat × Nat) :=
  (((lookup_analysis a "technical_skills").strengths.length,
    (lookup_analysis a "technical_skills").areas_for_improvement.length),
   ((lookup_analysis a "communication").strengths.length,
    (lookup_analysis a "communication").areas_for_improvement.length),
   ((lookup_analysis a "problem_approach").strengths.length,
    (lookup_analysis a "problem_approach").areas_for_improvement.length),
   ((lookup_analysis a "collaboration").strengths.length,
    (lookup_analysis a "collaboration").areas_for_improvement.length))

/-- The scores list as a function of the counts alone. -/
def scores_of_counts
    (t : (Nat × Nat) × (Nat × Nat) × (Nat × Nat) × (Nat × Nat)) :
    List (String × ScoreData) :=
  [("technical_skills",
     { score := score_from_counts t.1.1 t.1.2,
       rating := get_rating_from_score ((score_from_counts t.1.1 t.1.2 : Nat) : ℚ),
       weight := 0.4,
       weighted_score := ((score_from_counts t.1.1 t.1.2 : Nat) : ℚ) * 0.4 }),
   ("communication",
     { score := score_from_counts t.2.1.1 t.2.1.2,
       rating := get_rating_from_score ((score_from_counts t.2.1.1 t.2.1.2 : Nat) : ℚ),
       weight := 0.25,
       weighted_score := ((score_from_counts t.2.1.1 t.2.1.2 : Nat) : ℚ) * 0.25 }),
   ("problem_approach",
     { score := score_from_counts t.2.2.1.1 t.2.2.1.2,
       rating := get_rating_from_score ((score_from_counts t.2.2.1.1 t.2.2.1.2 : Nat) : ℚ),
       weight := 0.2,
       weighted_score := ((score_from_counts t.2.2.1.1 t.2.2.1.2 : Nat) : ℚ) * 0.2 }),
   ("collaboration",
     { score := score_from_counts t.2.2.2.1 t.2.2.2.2,
       rating := get_rating_from_score ((score_from_counts t.2.2.2.1 t.2.2.2.2 : Nat) : ℚ),
       weight := 0.15,
       weighted_score := ((score_from_counts t.2.2.2.1 t.2.2.2.2 : Nat) : ℚ) * 0.15 })]

end Evaluator

/-- Spec-side restatement of the claimed per-criterion scoring rule (claim C2):
5 when s ≥ 3 and i ≤ 1; otherwise 4 when s ≥ 2 and i ≤ 2; otherwise 3 when
s ≥ 1 and i ≤ 3; otherwise 2 when s ≥ 1 or i ≤ 4; otherwise 1. -/
def spec_score (s i : Nat) : Nat :=
  if 3 ≤ s ∧ i ≤ 1 then 5
  else if 2 ≤ s ∧ i ≤ 2 then 4
  else if 1 ≤ s ∧ i ≤ 3 then 3
  else if 1 ≤ s ∨ i ≤ 4 then 2
  else 1

/-- Spec-side restatement of the claimed overall score (claim C6): weighted sum
over weight sum, rounded to 2 decimals, and 0 when the total weight is 0. -/
def spec_overall (scores : List (String × Evaluator.ScoreData)) : ℚ :=
  let w := (scores.map fun p => p.2.weight).sum
  if w = 0 then 0
  else Evaluator.pyRound2 ((scores.map fun p => p.2.weighted_score).sum / w)

/-- Spec-side restatement of the claimed rating thresholds (claim C6). -/
def spec_rating (score : ℚ) : String :=
  if 4.5 ≤ score then "excellent"
  else if 3.5 ≤ score then "good"
  else if 2.5 ≤ score then "satisfactory"
  else if 1.5 ≤ score then "needs_improvement"
  else "inadequate"

/-! ### Intent Guard agent (backend/agents/intent_guard.py) -/

namespace IntentGuard

/-- `self.injection_patterns`, each regex written as its literal fragments
(the pieces between `.*`).  `answers?` and `roles?` keep only `answer` /
`role`: under `re.search` the optional trailing `s` is absorbed by the
following `.*` or by the end of the pattern. -/
def injection_patterns : List (List (List Char)) :=
  [[fr "ignore", fr "previous", fr "instructions"],
   [fr "you", fr "are", fr "now"],
   [fr "forget", fr "everything"],
   [fr "new", fr "role"],
   [fr "act", fr "as", fr "if"],
   [fr "pretend", fr "to", fr "be"],
   [fr "system", fr "prompt"],
   [fr "jailbreak"],
   [fr "prompt", fr "injection"],
   [fr "override", fr "behavior"],
   [fr "skip", fr "instructions"],
   [fr "i", fr "become", fr "the", fr "interviewer"],
   [fr "you", fr "give", fr "answer", fr "now"],
   [fr "switch", fr "role"],
   [fr "you", fr "be", fr "the", fr "candidate"],
   [fr "give", fr "me", fr "the", fr "answer"],
   [fr "give", fr "the", fr "answer"],
   [fr "give", fr "answer", fr "to", fr "question"],
   [fr "tell", fr "me", fr "the", fr "solution"],
   [fr "tell", fr "the", fr "solution"],
   [fr "show", fr "me", fr "the", fr "code"],
   [fr "show", fr "the", fr "code"],
   [fr "provide", fr "the", fr "solution"],
   [fr "what", fr "is", fr "the", fr "solution"]]

/-- `_check_patterns`: +2 per matching injection pattern (searched on the
lowercased text), +1 when the whitespace-split word count exceeds 200, +1 when
there are more than 10 newlines. -/
def check_patterns (text : String) : Nat :=
  let lower := lowerL text.toList
  2 * (injection_patterns.filter fun p => reSearchFrags p lower).length
    + (if 200 < pyWordCount text.toList then 1 else 0)
    + (if 10 < countChar '\n' text.toList then 1 else 0)

/-- `_get_detected_patterns`. -/
def get_detected_patterns (text : String) : List (List (List Char)) :=
  injection_patterns.filter fun p => reSearchFrags p (lowerL text.toList)

/-- Result dict of `_llm_security_check`. -/
structure LlmSecurityResult where
  is_safe : Bool
  risk_score : Nat
  reason : String
deriving DecidableEq

/-- `_llm_security_check`; the oracle is the raw LLM response, or the message
of the exception the call raised.  On exception the code fails open: safe with
risk score 1. -/
def llm_security_check (llm : Except String String) : LlmSecurityResult :=
  match llm with
  | Except.error e =>
    { is_safe := true, risk_score := 1,
      reason := "LLM analysis failed, assuming safe: " ++ e }
  | Except.ok content =>
    let v := parseVerdict content
    let is_safe := v.1 == fr "SAFE"
    { is_safe := is_safe,
      risk_score := if is_safe then 1 else 5,
      reason := v.2 }

/-- Result dict of `analyze_input`. -/
structure SecurityAnalysis where
  is_safe : Bool
  risk_score : Nat
  detected_patterns : List (List (List Char))
  reason : String
  cleaned_input : String
deriving DecidableEq

/-- `analyze_input`: a pattern score of at least 3 blocks regardless of the
LLM verdict; otherwise the LLM verdict decides. -/
def analyze_input (llm : Except String String) (user_input : String) : SecurityAnalysis :=
  let pattern_score := check_patterns user_input
  let llm_analysis := llm_security_check llm
  let is_safe := if 3 ≤ pattern_score then false else llm_analysis.is_safe
  { is_safe := is_safe,
    risk_score := max pattern_score llm_analysis.risk_score,
    detected_patterns := get_detected_patterns user_input,
    reason := if is_safe then "Input appears safe" else llm_analysis.reason,
    cleaned_input := if is_safe then user_input else "" }

/-- Result dict of `IntentGuardAgent.process_message` (also the value stored in
the workflow state's `security_check`; the blank-input path of the security
node stores it with `analysis := none`, `warning := none`). -/
structure SecurityCheck where
  approved : Bool
  message : String
  analysis : Option SecurityAnalysis
  warning : Option String
deriving DecidableEq

/-- `IntentGuardAgent.process_message`. -/
def process_message (llm : Except String String) (message : String) : SecurityCheck :=
  let analysis := analyze_input llm message
  if analysis.is_safe then
    { approved := true, message := message, analysis := some analysis, warning := none }
  else
    { approved := false, message := "", analysis := some analysis,
      warning := some "Input blocked due to security concerns" }

end IntentGuard

/-! ### Guardrails agent (backend/agents/guardrails.py) -/

namespace Guardrails

/-- `self.inappropriate_topics`. -/
def inappropriate_topics : List (List Char) :=
  [fr "fuck", fr "shit", fr "damn you", fr "stupid interviewer", fr "this sucks"]

/-- Alternatives of `\b(damn|hell|shit|fuck|bitch|ass)\b`. -/
def profanity_words : List (List Char) :=
  [fr "damn", fr "hell", fr "shit", fr "fuck", fr "bitch", fr "ass"]

/-- Alternatives of `(stupid|dumb|idiot|moron)` (plain substring search). -/
def profanity_group2 : List (List Char) :=
  [fr "stupid", fr "dumb", fr "idiot", fr "moron"]

/-- Alternatives of `(hate|suck|terrible)` (plain substring search). -/
def profanity_group3 : List (List Char) :=
  [fr "hate", fr "suck", fr "terrible"]

/-- Expansion of `you (are|re) (bad|terrible|stupid|wrong)` into its eight
literal alternatives (plain substring search). -/
def negative_group1 : List (List Char) :=
  [fr "you are bad", fr "you are terrible", fr "you are stupid", fr "you are wrong",
   fr "you re bad", fr "you re terrible", fr "you re stupid", fr "you re wrong"]

/-- Expansion of `this is (stupid|dumb|ridiculous)`. -/
def negative_group2 : List (List Char) :=
  [fr "this is stupid", fr "this is dumb", fr "this is ridiculous"]

/-- Expansion of `i (hate|dislike|can\x27t stand)`. -/
def negative_group3 : List (List Char) :=
  [fr "i hate", fr "i dislike", fr "i can\x27t stand"]

/-- Result dict of `_check_inappropriate_patterns`.  Note: this dict has no
`reason` key in the source. -/
structure PatternCheck where
  appropriate : Bool
  confidence : ℚ
  detected_topics : List (List Char)
  score : Nat
deriving DecidableEq

/-- `_check_inappropriate_patterns`: +1 per inappropriate topic contained in
the lowercased message, +2 per matching profanity/negative pattern. -/
def check_inappropriate_patterns (message : String) : PatternCheck :=
  let ml := lowerL message.toList
  let topics := inappropriate_topics.filter fun t => occursIn t ml
  let score := topics.length
    + (if profanity_words.any fun w => boundedOccurs w ml then 2 else 0)
    + (if profanity_group2.any fun w => occursIn w ml then 2 else 0)
    + (if profanity_group3.any fun w => occursIn w ml then 2 else 0)
    + (if negative_group1.any fun w => occursIn w ml then 2 else 0)
    + (if negative_group2.any fun w => occursIn w ml then 2 else 0)
    + (if negative_group3.any fun w => occursIn w ml then 2 else 0)
  { appropriate := score == 0,
    confidence := if 2 < score then 0.9 else 0.7,
    detected_topics := topics,
    score := score }

/-- Result dict of `_check_coherence` (this one always has a reason). -/
structure CoherenceCheck where
  appropriate : Bool
  confidence : ℚ
  reason : String
deriving DecidableEq

/-- `_check_coherence`. -/
def check_coherence (message : String) : CoherenceCheck :=
  let word_count := pyWordCount message.toList
  if word_count < 1 then
    { appropriate := false, confidence := 0.8, reason := "Message empty" }
  else if 1000 < word_count then
    { appropriate := false, confidence := 0.7, reason := "Message too long" }
  else
    let stripped := trimChars message.toList
    let alphaPart := stripped.filter fun c => !(c == ' ')
    if !stripped.isEmpty && (!alphaPart.isEmpty && alphaPart.all Char.isAlpha) then
      { appropriate := true, confidence := 0.9, reason := "Valid text message" }
    else if ((message.toList.filter fun c => !(c == ' ')).dedup.length ≤ 2
              ∧ 10 < message.length) then
      { appropriate := false, confidence := 0.9, reason := "Appears to be spam" }
    else
      { appropriate := true, confidence := 0.8, reason := "Message appears coherent" }

/-- Result dict of `_llm_appropriateness_check`. -/
structure LlmCheck where
  appropriate : Bool
  confidence : ℚ
  reason : String
deriving DecidableEq

/-- `_llm_appropriateness_check`; on exception the code fails open:
appropriate with confidence 0.3. -/
def llm_appropriateness_check (llm : Except String String) : LlmCheck :=
  match llm with
  | Except.error e =>
    { appropriate := true, confidence := 0.3,
      reason := "LLM check failed, assuming appropriate: " ++ e }
  | Except.ok content =>
    let v := parseVerdict content
    { appropriate := v.1 == fr "APPROPRIATE", confidence := 0.8, reason := v.2 }

/-- `_get_primary_reason(pattern_check, coherence_check, appropriateness_check)`:
returns the first inappropriate check's `reason`.  The pattern-check dict has
no `reason` key, so when it is the first inappropriate one the source raises
`KeyError` — modelled as `Except.error`. -/
def get_primary_reason (p : PatternCheck) (c : CoherenceCheck) (a : LlmCheck) :
    Except String String :=
  if !p.appropriate then Except.error "KeyError: reason"
  else if !c.appropriate then Except.ok c.reason
  else if !a.appropriate then Except.ok a.reason
  else Except.ok "Content appears appropriate"

/-- `self.redirect_messages`. -/
def redirect_messages : List String :=
  ["Let\x27s keep our focus on technical topics relevant to the interview.",
   "I\x27d prefer to discuss your technical skills and experience.",
   "Let\x27s redirect our conversation back to the interview questions.",
   "That\x27s outside the scope of this technical interview. Let\x27s continue with coding topics."]

/-- `_get_redirect_message` (`random.choice` via the oracle index `pick`). -/
def get_redirect_message (pick : Nat) : String :=
  redirect_messages.getD (pick % redirect_messages.length) ""

/-- The `guardrails_check` dict stored in the workflow state.  `check_response`
fills every field; the blank-input path of the guardrails node stores only
`appropriate := true`. -/
structure GuardrailsCheck where
  appropriate : Bool
  needs_redirect : Option Bool
  reason : Option String
  suggested_redirect : Option String
  confidence : Option ℚ
deriving DecidableEq

/-- `GuardrailsAgent.check_response` (the `context` argument only feeds the
LLM prompt, whose reply is the oracle).  When the LLM approves, block only on
severe pattern violations (score > 3) or an incoherent message; when the LLM
rejects, block.  Building the returned dict calls `_get_primary_reason`, which
raises whenever the pattern score is nonzero. -/
def check_response (llm : Except String String) (pick : Nat)
    (message _context : String) : Except String GuardrailsCheck :=
  let pattern_check := check_inappropriate_patterns message
  let coherence_check := check_coherence message
  let appropriateness_check := llm_appropriateness_check llm
  let is_appropriate : Bool :=
    if appropriateness_check.appropriate then
      if pattern_check.score ≤ 3 then coherence_check.appropriate else false
    else false
  match get_primary_reason pattern_check coherence_check appropriateness_check with
  | Except.error e => Except.error e
  | Except.ok reason =>
    Except.ok
      { appropriate := is_appropriate,
        needs_redirect := some (!is_appropriate),
        reason := some reason,
        suggested_redirect := some (get_redirect_message pick),
        confidence := some (min pattern_check.confidence
          (min coherence_check.confidence appropriateness_check.confidence)) }

/-- `self.max_resets`. -/
def max_resets : Nat := 3

/-- Result dict of `handle_inappropriate_response`. -/
structure RedirectResult where
  action : String
  message : String
  reason : String
  attempts_remaining : Option Nat
deriving DecidableEq

/-- `handle_inappropriate_response`: increments `conversation_resets` (state
passed explicitly) and either redirects or ends the interview. -/
def handle_inappropriate_response (resets pick : Nat) (_message reason : String) :
    Nat × RedirectResult :=
  let resets2 := resets + 1
  if max_resets ≤ resets2 then
    (resets2,
     { action := "end_interview",
       message := "I\x27m sorry, but we need to end this interview session. Please reach out to schedule a new interview if you\x27d like to continue.",
       reason := "Too many inappropriate responses",
       attempts_remaining := none })
  else
    (resets2,
     { action := "redirect",
       message := get_redirect_message pick,
       reason := reason,
       attempts_remaining := some (max_resets - resets2) })

end Guardrails

/-! ### Problem identifiers (LeetCode ids are ints in the curated table but
strings when fetched remotely) -/

inductive IdVal where
  | nat (n : Nat)
  | str (s : String)
deriving DecidableEq

/-! ### LeetCode client (backend/apis/leetcode_api.py) -/

namespace LeetCode

/-- Entry of `self.curated_problems`. -/
structure Entry where
  id : Nat
  title : String
  slug : String
deriving DecidableEq

def curated_easy : List Entry :=
  [⟨1, "Two Sum", "two-sum"⟩,
   ⟨26, "Remove Duplicates from Sorted Array", "remove-duplicates-from-sorted-array"⟩,
   ⟨121, "Best Time to Buy and Sell Stock", "best-time-to-buy-and-sell-stock"⟩,
   ⟨125, "Valid Palindrome", "valid-palindrome"⟩,
   ⟨136, "Single Number", "single-number"⟩,
   ⟨169, "Majority Element", "majority-element"⟩,
   ⟨217, "Contains Duplicate", "contains-duplicate"⟩,
   ⟨242, "Valid Anagram", "valid-anagram"⟩,
   ⟨268, "Missing Number", "missing-number"⟩,
   ⟨283, "Move Zeroes", "move-zeroes"⟩]

def curated_medium : List Entry :=
  [⟨3, "Longest Substring Without Repeating Characters", "longest-substring-without-repeating-characters"⟩,
   ⟨15, "3Sum", "3sum"⟩,
   ⟨33, "Search in Rotated Sorted Array", "search-in-rotated-sorted-array"⟩,
   ⟨49, "Group Anagrams", "group-anagrams"⟩,
   ⟨56, "Merge Intervals", "merge-intervals"⟩,
   ⟨75, "Sort Colors", "sort-colors"⟩,
   ⟨102, "Binary Tree Level Order Traversal", "binary-tree-level-order-traversal"⟩,
   ⟨139, "Word Break", "word-break"⟩,
   ⟨200, "Number of Islands", "number-of-islands"⟩,
   ⟨238, "Product of Array Except Self", "product-of-array-except-self"⟩]

def curated_hard : List Entry :=
  [⟨4, "Median of Two Sorted Arrays", "median-of-two-sorted-arrays"⟩,
   ⟨23, "Merge k Sorted Lists", "merge-k-sorted-lists"⟩,
   ⟨25, "Reverse Nodes in k-Group", "reverse-nodes-in-k-group"⟩,
   ⟨42, "Trapping Rain Water", "trapping-rain-water"⟩,
   ⟨76, "Minimum Window Substring", "minimum-window-substring"⟩,
   ⟨84, "Largest Rectangle in Histogram", "largest-rectangle-in-histogram"⟩,
   ⟨124, "Binary Tree Maximum Path Sum", "binary-tree-maximum-path-sum"⟩,
   ⟨295, "Find Median from Data Stream", "find-median-from-data-stream"⟩]

/-- `self.curated_problems` as a keyed lookup. -/
def curated_lookup (key : String) : Option (List Entry) :=
  if key = "easy" then some curated_easy
  else if key = "medium" then some curated_medium
  else if key = "hard" then some curated_hard
  else none

/-- The reassigned `difficulty` variable: defaults to "easy" when the
lowercased difficulty is not a key of the table. -/
def difficulty2 (difficulty : String) : String :=
  if (curated_lookup (pyLower difficulty)).isNone then "easy" else difficulty

/-- `problems = self.curated_problems[difficulty.lower()]` after the default. -/
def problems_for (difficulty : String) : List Entry :=
  (curated_lookup (pyLower (difficulty2 difficulty))).getD curated_easy

/-- `random.choice(problems)` via the oracle index `pick` (every curated list
is nonempty, so the fallback entry of `getD` is never used). -/
def selected_entry (pick : Nat) (difficulty : String) : Entry :=
  let problems := problems_for difficulty
  problems.getD (pick % problems.length) ⟨1, "Two Sum", "two-sum"⟩

/-- Raw remote question data used by `_format_problem_details` (hints, topic
tags and example test cases are carried through unchanged by the source and
are omitted here; no claim concerns them). -/
structure QuestionData where
  questionFrontendId : String
  title : String
  titleSlug : String
  content : String
  difficulty : String
deriving DecidableEq

/-- The problem dict returned to the caller. -/
structure Problem where
  id : IdVal
  title : String
  slug : String
  difficulty : String
  description : String
  source : String
deriving DecidableEq

/-- `_format_problem_details` (HTML cleaning of the description is the
identity on the texts considered here and is not modelled further). -/
def format_problem_details (qd : QuestionData) : Problem :=
  { id := IdVal.str qd.questionFrontendId,
    title := qd.title,
    slug := qd.titleSlug,
    difficulty := pyLower qd.difficulty,
    description := qd.content,
    source := "leetcode" }

/-- `_get_fallback_problem` (the two slug-specific canned descriptions differ
only in the description text, which no claim concerns; the generic text is
used for the description here). -/
def get_fallback_problem (e : Entry) (difficulty : String) : Problem :=
  { id := IdVal.nat e.id,
    title := e.title,
    slug := e.slug,
    difficulty := difficulty,
    description := "This is a " ++ difficulty ++ " level coding problem. Please solve it step by step.",
    source := "leetcode_fallback" }

/-- `get_problem_by_difficulty`: the oracle `fetch` stands for
`fetch_problem_details` (network + cache), returning the remote question data
on success and `none` on any failure. -/
def get_problem_by_difficulty (fetch : String → Option QuestionData)
    (pick : Nat) (difficulty : String) : Problem :=
  let e := selected_entry pick difficulty
  match fetch e.slug with
  | some qd => format_problem_details qd
  | none => get_fallback_problem e (difficulty2 difficulty)

end LeetCode

/-! ### Codeforces client (backend/apis/codeforces_api.py) -/

namespace Codeforces

/-- Entry of `self.curated_problems`. -/
structure Entry where
  contestId : Nat
  index : String
  name : String
  rating : Nat
deriving DecidableEq

def curated_easy : List Entry :=
  [⟨4, "A", "Watermelon", 800⟩,
   ⟨71, "A", "Way Too Long Words", 800⟩,
   ⟨231, "A", "Team", 800⟩,
   ⟨282, "A", "Bit++", 800⟩,
   ⟨339, "A", "Helpful Maths", 800⟩,
   ⟨266, "A", "Stones on the Table", 800⟩,
   ⟨112, "A", "Petya and Strings", 800⟩,
   ⟨158, "A", "Next Round", 800⟩,
   ⟨236, "A", "Boy or Girl", 800⟩,
   ⟨263, "A", "Beautiful Matrix", 800⟩]

def curated_medium : List Entry :=
  [⟨1, "A", "Theatre Square", 1000⟩,
   ⟨50, "A", "Domino piling", 800⟩,
   ⟨118, "A", "String Task", 1000⟩,
   ⟨122, "A", "Lucky Division", 1000⟩,
   ⟨160, "A", "Twins", 900⟩,
   ⟨148, "A", "Insomnia cure", 900⟩,
   ⟨116, "A", "Tram", 800⟩,
   ⟨69, "A", "Young Physicist", 1000⟩,
   ⟨144, "A", "Arrival of the General", 800⟩,
   ⟨467, "A", "George and Accommodation", 800⟩]

def curated_hard : List Entry :=
  [⟨580, "C", "Kefa and Park", 1500⟩,
   ⟨492, "B", "Vanya and Lanterns", 1200⟩,
   ⟨279, "B", "Books", 1400⟩,
   ⟨276, "C", "Little Girl and Maximum Sum", 1400⟩,
   ⟨368, "B", "Sereja and Suffixes", 1100⟩,
   ⟨433, "B", "Kuriyama Mirai\x27s Stones", 1200⟩,
   ⟨472, "A", "Design Tutorial: Learn from Math", 1000⟩,
   ⟨451, "B", "Sort the Array", 1300⟩]

/-- `self.curated_problems` as a keyed lookup. -/
def curated_lookup (key : String) : Option (List Entry) :=
  if key = "easy" then some curated_easy
  else if key = "medium" then some curated_medium
  else if key = "hard" then some curated_hard
  else none

/-- The reassigned `difficulty` variable. -/
def difficulty2 (difficulty : String) : String :=
  if (curated_lookup (pyLower difficulty)).isNone then "easy" else difficulty

/-- `problems = self.curated_problems[difficulty.lower()]` after the default. -/
def problems_for (difficulty : String) : List Entry :=
  (curated_lookup (pyLower (difficulty2 difficulty))).getD curated_easy

/-- `random.choice(problems)` via the oracle index `pick`. -/
def selected_entry (pick : Nat) (difficulty : String) : Entry :=
  let problems := problems_for difficulty
  problems.getD (pick % problems.length) ⟨4, "A", "Watermelon", 800⟩

/-- A problem object from the Codeforces JSON (fields read with `.get`, so all
optional; tags and limits are carried through unchanged and omitted). -/
structure RemoteProblem where
  contestId : Option Nat
  index : Option String
  name : Option String
  rating : Option Nat
deriving DecidableEq

/-- Outcome of the `contest.standings` HTTP call: an exception (which skips
the problemset fallback), an unusable response (non-200 or status not OK), or
the contest's problem list. -/
inductive StandingsOutcome where
  | excpt
  | noData
  | data (problems : List RemoteProblem)

/-- The problem dict returned to the caller. -/
structure Problem where
  id : String
  title : String
  contest_id : Nat
  index : String
  difficulty : String
  rating : Nat
  source : String
deriving DecidableEq

/-- `_map_rating_to_difficulty`. -/
def map_rating_to_difficulty (rating : Nat) : String :=
  if rating ≤ 900 then "easy"
  else if rating ≤ 1400 then "medium"
  else "hard"

/-- `_format_codeforces_problem` (the generated description text and URL are
determined by these fields and are not separately modelled). -/
def format_codeforces_problem (p : RemoteProblem) (contest_id : Nat) : Problem :=
  { id := toString contest_id ++ p.index.getD "",
    title := p.name.getD "Unknown Problem",
    contest_id := contest_id,
    index := p.index.getD "",
    difficulty := map_rating_to_difficulty (p.rating.getD 800),
    rating := p.rating.getD 800,
    source := "codeforces" }

/-- `_fetch_from_problemset`: scan the global problemset (oracle `ps`, `none`
on any failure) for the contest id and index. -/
def fetch_from_problemset (ps : Option (List RemoteProblem))
    (contest_id : Nat) (index : String) : Option Problem :=
  match ps with
  | none => none
  | some problems =>
    (problems.find? fun p =>
        p.contestId == some contest_id && p.index == some index).map
      fun p => format_codeforces_problem p contest_id

/-- `fetch_problem_details`: try `contest.standings` first; on a found index
format it, otherwise fall back to the problemset scan; an exception returns
`none` directly. -/
def fetch_problem_details (st : Nat → StandingsOutcome)
    (ps : Option (List RemoteProblem)) (contest_id : Nat) (index : String) :
    Option Problem :=
  match st contest_id with
  | StandingsOutcome.excpt => none
  | StandingsOutcome.noData => fetch_from_problemset ps contest_id index
  | StandingsOutcome.data problems =>
    match problems.find? fun p => p.index == some index with
    | some p => some (format_codeforces_problem p contest_id)
    | none => fetch_from_problemset ps contest_id index

/-- `_get_fallback_problem` (the slug-specific canned descriptions are not
modelled; no claim concerns the description). -/
def get_fallback_problem (e : Entry) (difficulty : String) : Problem :=
  { id := toString e.contestId ++ e.index,
    title := e.name,
    contest_id := e.contestId,
    index := e.index,
    difficulty := difficulty,
    rating := e.rating,
    source := "codeforces_fallback" }

/-- `get_problem_by_difficulty`. -/
def get_problem_by_difficulty (st : Nat → StandingsOutcome)
    (ps : Option (List RemoteProblem)) (pick : Nat) (difficulty : String) :
    Problem :=
  let e := selected_entry pick difficulty
  match fetch_problem_details st ps e.contestId e.index with
  | some details => details
  | none => get_fallback_problem e (difficulty2 difficulty)

end Codeforces

/-! ### Workflow orchestrator (backend/main.py) -/

namespace Workflow

/-- The `InterviewState` fields the modelled code reads or writes
(`conversation_history`, `current_question`, `candidate_responses` and
`interview_metadata` are carried through the routing unchanged and are
omitted; no claim concerns them). -/
structure State where
  user_input : String
  response : String
  current_stage : String
  security_check : Option IntentGuard.SecurityCheck
  guardrails_check : Option Guardrails.GuardrailsCheck
  interview_complete : Bool
  error : Option String
  evaluation : Option Evaluator.EvalReport
deriving DecidableEq

/-- The six graph nodes added by `_build_workflow`. -/
inductive Node where
  | security_check
  | guardrails_check
  | interview_process
  | generate_response
  | evaluation
  | error_handler
deriving DecidableEq

/-- The node bodies.  The routing claims (C1, C7) hold for arbitrary node
behaviour, so the bodies are abstract state transformers; the concrete
security/guardrails node bodies are modelled separately below. -/
structure Env where
  securityNode : State → State
  guardrailsNode : State → State
  interviewNode : State → State
  generateNode : State → State
  evaluationNode : State → State
  errorNode : State → State

/-- `security_check.get("approved", False)`. -/
def sec_approved (s : State) : Bool :=
  match s.security_check with
  | some c => c.approved
  | none => false

/-- `guardrails_check.get("appropriate", True)`. -/
def guard_appropriate (s : State) : Bool :=
  match s.guardrails_check with
  | some c => c.appropriate
  | none => true

/-- `guardrails_check.get("needs_redirect")` (missing key is falsy). -/
def guard_needs_redirect (s : State) : Bool :=
  match s.guardrails_check with
  | some c => c.needs_redirect.getD false
  | none => false

/-- Python truthiness of `state.get("error")` (None and "" are falsy). -/
def err_truthy (s : State) : Bool :=
  match s.error with
  | some m => !(m == "")
  | none => false

/-- `_route_after_security`. -/
def route_after_security (s : State) : String :=
  if sec_approved s then "safe" else "unsafe"

/-- `_route_after_guardrails`. -/
def route_after_guardrails (s : State) : String :=
  if !guard_appropriate s then
    (if guard_needs_redirect s then "redirect" else "inappropriate")
  else "appropriate"

/-- `_route_after_interview`. -/
def route_after_interview (s : State) : String :=
  if err_truthy s then "error"
  else if s.interview_complete then "complete"
  else "continue"

/-- Conditional-edge table of the security node. -/
def security_edges (r : String) : Option Node :=
  if r = "safe" then some Node.guardrails_check
  else if r = "unsafe" then some Node.error_handler
  else none

/-- Conditional-edge table of the guardrails node. -/
def guardrails_edges (r : String) : Option Node :=
  if r = "appropriate" then some Node.interview_process
  else if r = "inappropriate" then some Node.error_handler
  else if r = "redirect" then some Node.generate_response
  else none

/-- Conditional-edge table of the interview node. -/
def interview_edges (r : String) : Option Node :=
  if r = "continue" then some Node.generate_response
  else if r = "complete" then some Node.evaluation
  else if r = "error" then some Node.error_handler
  else none

/-- Run one node body. -/
def run_node (env : Env) : Node → State → State
  | Node.security_check, s => env.securityNode s
  | Node.guardrails_check, s => env.guardrailsNode s
  | Node.interview_process, s => env.interviewNode s
  | Node.generate_response, s => env.generateNode s
  | Node.evaluation, s => env.evaluationNode s
  | Node.error_handler, s => env.errorNode s

/-- Where execution goes after a node has run: `generate_response`,
`evaluation` and `error_handler` edge to END; the other nodes follow their
conditional-edge table (`stuck` would mean a route string missing from the
table, which never happens). -/
inductive Step where
  | halt
  | stuck
  | to (n : Node)

def next_of : Node → State → Step
  | Node.security_check, s =>
    match security_edges (route_after_security s) with
    | some n => Step.to n
    | none => Step.stuck
  | Node.guardrails_check, s =>
    match guardrails_edges (route_after_guardrails s) with
    | some n => Step.to n
    | none => Step.stuck
  | Node.interview_process, s =>
    match interview_edges (route_after_interview s) with
    | some n => Step.to n
    | none => Step.stuck
  | Node.generate_response, _ => Step.halt
  | Node.evaluation, _ => Step.halt
  | Node.error_handler, _ => Step.halt

/-- Fueled execution of the compiled graph from a node. -/
def runG (env : Env) : Nat → Node → State → Option State
  | 0, _, _ => none
  | fuel + 1, n, s =>
    let s2 := run_node env n s
    match next_of n s2 with
    | Step.halt => some s2
    | Step.stuck => none
    | Step.to n2 => runG env fuel n2 s2

/-- The workflow invocation: entry point `security_check`; fuel 6 covers every
path of the six-node graph. -/
def run_workflow (env : Env) (s : State) : Option State :=
  runG env 6 Node.security_check s

/-- Fueled execution recording the visited nodes in order. -/
def runTraceAux (env : Env) : Nat → Node → State → List Node
  | 0, _, _ => []
  | fuel + 1, n, s =>
    let s2 := run_node env n s
    n :: (match next_of n s2 with
          | Step.halt => []
          | Step.stuck => []
          | Step.to n2 => runTraceAux env fuel n2 s2)

/-- The sequence of nodes a run visits. -/
def run_trace (env : Env) (s : State) : List Node :=
  runTraceAux env 6 Node.security_check s

/-- Blank check `not user_input.strip()` used by both check nodes. -/
def isBlank (s : String) : Bool := (trimChars s.toList).isEmpty

/-- `_security_check_node`: blank input is approved without consulting the
agent; otherwise the Intent Guard agent decides. -/
def security_check_node (llm : Except String String) (s : State) : State :=
  if isBlank s.user_input then
    let c : IntentGuard.SecurityCheck :=
      { approved := true, message := s.user_input, analysis := none, warning := none }
    { s with security_check := some c }
  else
    { s with security_check := some (IntentGuard.process_message llm s.user_input) }

/-- `_guardrails_check_node`: blank input is appropriate without consulting
the agent; otherwise `check_response` decides (and its `KeyError` propagates
out of the node, hence the `Except`). -/
def guardrails_check_node (llm : Except String String) (pick : Nat) (s : State) :
    Except String State :=
  let context := "Interview stage: " ++ s.current_stage
  if isBlank s.user_input then
    let g : Guardrails.GuardrailsCheck :=
      { appropriate := true, needs_redirect := none, reason := none,
        suggested_redirect := none, confidence := none }
    Except.ok { s with guardrails_check := some g }
  else
    (Guardrails.check_response llm pick s.user_input context).map
      fun g => { s with guardrails_check := some g }

/-- `_generate_response_node`: threads the guardrails agent's reset counter,
ends the interview when the redirect handler says so, and guarantees a
nonempty response. -/
def generate_response_node (resets pick : Nat) (s : State) : Nat × State :=
  let rs :=
    if guard_needs_redirect s then
      let reason :=
        match s.guardrails_check with
        | some g => g.reason.getD "Inappropriate content"
        | none => "Inappropriate content"
      let hr := Guardrails.handle_inappropriate_response resets pick s.user_input reason
      if hr.2.action = "end_interview" then
        (hr.1, { s with interview_complete := true, response := hr.2.message })
      else
        (hr.1, { s with response := hr.2.message })
    else (resets, s)
  if rs.2.response = "" then
    (rs.1, { rs.2 with response := "I\x27m here to help with your interview. Please let me know how I can assist you." })
  else rs

/-- The dicts `process_message` can return: `{"error": ...}` with no session,
a success dict, or the canned error dict. -/
structure PMOut where
  status : Option String
  message : Option String
  stage : Option String
  interview_complete : Option Bool
  evaluation : Option Evaluator.EvalReport
  error : Option String
deriving DecidableEq

/-- `AIInterviewerSystem.process_message`: update the state with the new
input, invoke the workflow (oracle `wf`, `Except.error` when `ainvoke`
raises), and map the outcome to a result dict.  Any exception is caught and
turned into the canned error dict; nothing propagates. -/
def process_message (session_active : Bool) (wf : State → Except String State)
    (current : State) (user_input : String) : PMOut :=
  if !session_active then
    { status := none, message := none, stage := none, interview_complete := none,
      evaluation := none,
      error := some "No active interview session. Please start an interview first." }
  else
    let s := { current with user_input := user_input, error := none }
    match wf s with
    | Except.ok result =>
      { status := some "success",
        message := some result.response,
        stage := some result.current_stage,
        interview_complete := some result.interview_complete,
        evaluation := if result.interview_complete then result.evaluation else none,
        error := none }
    | Except.error e =>
      { status := some "error",
        message := some "I apologize, but I encountered a technical issue. Could you please try again?",
        stage := none, interview_complete := none, evaluation := none,
        error := some e }

end Workflow

/-- Spec-side dispatcher of claim C7: run the security-check node and dispatch
to the error handler when it does not approve; otherwise run the
guardrails-check node and dispatch to the error handler or to response
generation on an inappropriate result (response generation exactly when the
result asks for a redirect); otherwise run the interview step and dispatch to
the error handler on error, to evaluation when the interview is complete, and
to response generation otherwise. -/
def spec_dispatcher (env : Workflow.Env) (s : Workflow.State) : Workflow.State :=
  let s1 := env.securityNode s
  if Workflow.sec_approved s1 then
    let s2 := env.guardrailsNode s1
    if Workflow.guard_appropriate s2 then
      let s3 := env.interviewNode s2
      if Workflow.err_truthy s3 then env.errorNode s3
      else if s3.interview_complete then env.evaluationNode s3
      else env.generateNode s3
    else if Workflow.guard_needs_redirect s2 then env.generateNode s2
    else env.errorNode s2
  else env.errorNode s1

/-- An initial state as built by `start_interview` (response text elided). -/
def emptyState : Workflow.State :=
  { user_input := "", response := "", current_stage := "introduction",
    security_check := none, guardrails_check := none,
    interview_complete := false, error := none, evaluation := none }

/-- Concrete node bodies for the C1 counterexample: security approves, the
guardrails find the turn appropriate, and the interview step reports an
ordinary continuing turn. -/
def c1Env : Workflow.Env :=
  { securityNode := fun s =>
      let c : IntentGuard.SecurityCheck :=
        { approved := true, message := s.user_input, analysis := none, warning := none }
      { s with security_check := some c },
    guardrailsNode := fun s =>
      let g : Guardrails.GuardrailsCheck :=
        { appropriate := true, needs_redirect := some false, reason := none,
          suggested_redirect := none, confidence := none }
      { s with guardrails_check := some g },
    interviewNode := fun s => { s with interview_complete := false, error := none },
    generateNode := id,
    evaluationNode := id,
    errorNode := id }

/-- Remote fetch for the C5 counterexample: the server answers the query with
data for a different problem. -/
def lcBogusFetch : String → Option LeetCode.QuestionData :=
  fun _ => some { questionFrontendId := "999", title := "Bogus Problem",
                  titleSlug := "bogus-problem", content := "", difficulty := "Easy" }

/-- Every title in the LeetCode curated table. -/
def lcAllCuratedTitles : List String :=
  (LeetCode.curated_easy ++ LeetCode.curated_medium ++ LeetCode.curated_hard).map
    fun e => e.title

/-- The guardrails result of a turn that requests a redirect (for the C9
witness). -/
def redirectCheck : Guardrails.GuardrailsCheck :=
  { appropriate := false, needs_redirect := some true,
    reason := some "Inappropriate content", suggested_redirect := none,
    confidence := none }

/-- A state whose guardrails check requests a redirect (for the C9 witness). -/
def redirectState : Workflow.State :=
  { emptyState with
    user_input := "off topic",
    guardrails_check := some redirectCheck }

/-! ### Shared helper lemmas -/

/-- Selection by `pick % length` stays inside the list. -/
theorem list_getD_mod_mem {α : Type} (l : List α) (d : α) (k : Nat) (h : 0 < l.length) :
    l.getD (k % l.length) d ∈ l := by
  have hm : k % l.length < l.length := Nat.mod_lt _ h
  rw [List.getD_eq_getElem l d hm]
  exact List.getElem_mem hm

/-- Every LeetCode difficulty resolves to a nonempty curated list. -/
theorem lc_problems_for_pos (difficulty : String) :
    0 < (LeetCode.problems_for difficulty).length := by
  unfold LeetCode.problems_for LeetCode.curated_lookup
  split
  · decide
  · split
    · decide
    · split
      · decide
      · decide

/-- The LeetCode selected entry is a curated entry. -/
theorem lc_selected_mem (pick : Nat) (difficulty : String) :
    LeetCode.selected_entry pick difficulty ∈ LeetCode.problems_for difficulty := by
  unfold LeetCode.selected_entry
  exact list_getD_mod_mem _ _ _ (lc_problems_for_pos difficulty)

/-- Every Codeforces difficulty resolves to a nonempty curated list. -/
theorem cf_problems_for_pos (difficulty : String) :
    0 < (Codeforces.problems_for difficulty).length := by
  unfold Codeforces.problems_for Codeforces.curated_lookup
  split
  · decide
  · split
    · decide
    · split
      · decide
      · decide

/-- The Codeforces selected entry is a curated entry. -/
theorem cf_selected_mem (pick : Nat) (difficulty : String) :
    Codeforces.selected_entry pick difficulty ∈ Codeforces.problems_for difficulty := by
  unfold Codeforces.selected_entry
  exact list_getD_mod_mem _ _ _ (cf_problems_for_pos difficulty)

/-- Formatting the problem found in a standings scan yields the queried id. -/
theorem cf_find_id (problems : List Codeforces.RemoteProblem) (cid : Nat) (idx : String)
    (p : Codeforces.RemoteProblem)
    (h : problems.find? (fun q => q.index == some idx) = some p) :
    (Codeforces.format_codeforces_problem p cid).id = toString cid ++ idx := by
  have hp := List.find?_some h
  rw [beq_iff_eq] at hp
  simp [Codeforces.format_codeforces_problem, hp]

/-- Formatting the problem found in a problemset scan yields the queried id. -/
theorem cf_ps_find_id (problems : List Codeforces.RemoteProblem) (cid : Nat) (idx : String)
    (p : Codeforces.RemoteProblem)
    (h : problems.find? (fun q => q.contestId == some cid && q.index == some idx) = some p) :
    (Codeforces.format_codeforces_problem p cid).id = toString cid ++ idx := by
  have hp := List.find?_some h
  rw [Bool.and_eq_true, beq_iff_eq, beq_iff_eq] at hp
  simp [Codeforces.format_codeforces_problem, hp.2]

/-- A successful problemset fetch returns the queried id. -/
theorem cf_problemset_id (ps : Option (List Codeforces.RemoteProblem)) (cid : Nat)
    (idx : String) (d : Codeforces.Problem)
    (h : Codeforces.fetch_from_problemset ps cid idx = some d) :
    d.id = toString cid ++ idx := by
  unfold Codeforces.fetch_from_problemset at h
  cases hv : ps
  case none =>
    rw [hv] at h
    exact absurd h (by simp)
  case some probs =>
    rw [hv] at h
    have h3 : (probs.find? fun q => q.contestId == some cid && q.index == some idx).map
        (fun p => Codeforces.format_codeforces_problem p cid) = some d := h
    cases hfind : probs.find? fun q => q.contestId == some cid && q.index == some idx
    case none =>
      rw [hfind] at h3
      exact absurd h3 (by simp)
    case some p =>
      rw [hfind] at h3
      simp at h3
      rw [← h3]
      exact cf_ps_find_id probs cid idx p hfind

/-- A successful Codeforces fetch returns the queried id (both the standings
and the problemset path filter on the index before formatting). -/
theorem cf_fetch_id (st : Nat → Codeforces.StandingsOutcome)
    (ps : Option (List Codeforces.RemoteProblem)) (cid : Nat) (idx : String)
    (d : Codeforces.Problem)
    (h : Codeforces.fetch_problem_details st ps cid idx = some d) :
    d.id = toString cid ++ idx := by
  unfold Codeforces.fetch_problem_details at h
  cases hst : st cid
  case excpt =>
    rw [hst] at h
    exact absurd h (by simp)
  case noData =>
    rw [hst] at h
    exact cf_problemset_id ps cid idx d h
  case data problems =>
    rw [hst] at h
    have h3 : (match problems.find? fun p => p.index == some idx with
        | some p => some (Codeforces.format_codeforces_problem p cid)
        | none => Codeforces.fetch_from_problemset ps cid idx) = some d := h
    cases hfind : problems.find? fun p => p.index == some idx
    case none =>
      rw [hfind] at h3
      exact cf_problemset_id ps cid idx d h3
    case some p =>
      rw [hfind] at h3
      simp at h3
      rw [← h3]
      exact cf_find_id problems cid idx p hfind

/-! ### Claim theorems -/

/-- C1 (counterexample): a turn that security approves and the guardrails find
appropriate, with an ordinary continuing interview step, visits
security-check, guardrails-check, the interview step and response generation,
and the run ends without ever visiting evaluation — so it is not true that
such a turn "passes through response generation and evaluation" before the
run ends. -/
theorem c1_counterexample :
    Workflow.sec_approved (c1Env.securityNode emptyState) = true ∧
    Workflow.guard_appropriate (c1Env.guardrailsNode (c1Env.securityNode emptyState)) = true ∧
    Workflow.run_trace c1Env emptyState =
      [Workflow.Node.security_check, Workflow.Node.guardrails_check,
       Workflow.Node.interview_process, Workflow.Node.generate_response] ∧
    Workflow.Node.evaluation ∉ Workflow.run_trace c1Env emptyState := by
  refine ⟨rfl, rfl, rfl, by decide⟩

/-- C1 (amended): execution enters at the security-check node; a turn approved
by security proceeds to the guardrails check; a turn found appropriate
proceeds to the interview step; and the turn then passes through exactly one
of response generation (interview continuing), evaluation (interview
complete) or the error handler (interview error) before the run ends — never
both response generation and evaluation.  The visited-node trace is fully
characterised for every environment and input state. -/
theorem c1_stage_order :
    ∀ (env : Workflow.Env) (s : Workflow.State),
      Workflow.run_trace env s =
        (let s1 := env.securityNode s
         if Workflow.sec_approved s1 then
           let s2 := env.guardrailsNode s1
           if Workflow.guard_appropriate s2 then
             let s3 := env.interviewNode s2
             if Workflow.err_truthy s3 then
               [Workflow.Node.security_check, Workflow.Node.guardrails_check,
                Workflow.Node.interview_process, Workflow.Node.error_handler]
             else if s3.interview_complete then
               [Workflow.Node.security_check, Workflow.Node.guardrails_check,
                Workflow.Node.interview_process, Workflow.Node.evaluation]
             else
               [Workflow.Node.security_check, Workflow.Node.guardrails_check,
                Workflow.Node.interview_process, Workflow.Node.generate_response]
           else if Workflow.guard_needs_redirect s2 then
             [Workflow.Node.security_check, Workflow.Node.guardrails_check,
              Workflow.Node.generate_response]
           else
             [Workflow.Node.security_check, Workflow.Node.guardrails_check,
              Workflow.Node.error_handler]
         else [Workflow.Node.security_check, Workflow.Node.error_handler]) := by
  intro env s
  by_cases h1 : Workflow.sec_approved (env.securityNode s) = true
  · by_cases h2 : Workflow.guard_appropriate (env.guardrailsNode (env.securityNode s)) = true
    · by_cases h3 : Workflow.err_truthy
          (env.interviewNode (env.guardrailsNode (env.securityNode s))) = true
      · simp [Workflow.run_trace, Workflow.runTraceAux, Workflow.run_node, Workflow.next_of,
              Workflow.route_after_security, Workflow.route_after_guardrails,
              Workflow.route_after_interview, Workflow.security_edges,
              Workflow.guardrails_edges, Workflow.interview_edges, h1, h2, h3]
      · by_cases h4 : (env.interviewNode
            (env.guardrailsNode (env.securityNode s))).interview_complete = true
        · simp [Workflow.run_trace, Workflow.runTraceAux, Workflow.run_node, Workflow.next_of,
                Workflow.route_after_security, Workflow.route_after_guardrails,
                Workflow.route_after_interview, Workflow.security_edges,
                Workflow.guardrails_edges, Workflow.interview_edges, h1, h2, h3, h4]
        · simp [Workflow.run_trace, Workflow.runTraceAux, Workflow.run_node, Workflow.next_of,
                Workflow.route_after_security, Workflow.route_after_guardrails,
                Workflow.route_after_interview, Workflow.security_edges,
                Workflow.guardrails_edges, Workflow.interview_edges, h1, h2, h3, h4]
    · by_cases h3 : Workflow.guard_needs_redirect
          (env.guardrailsNode (env.securityNode s)) = true
      · simp [Workflow.run_trace, Workflow.runTraceAux, Workflow.run_node, Workflow.next_of,
              Workflow.route_after_security, Workflow.route_after_guardrails,
              Workflow.security_edges, Workflow.guardrails_edges, h1, h2, h3]
      · simp [Workflow.run_trace, Workflow.runTraceAux, Workflow.run_node, Workflow.next_of,
              Workflow.route_after_security, Workflow.route_after_guardrails,
              Workflow.security_edges, Workflow.guardrails_edges, h1, h2, h3]
  · simp [Workflow.run_trace, Workflow.runTraceAux, Workflow.run_node, Workflow.next_of,
          Workflow.route_after_security, Workflow.security_edges, h1]

/-- C2: for every analysis dictionary, the per-criterion score computed by
`_calculate_scores` is exactly the claimed threshold function of the counts
s = len(strengths) and i = len(areas_for_improvement), and two analyses with
equal counts get identical scores — the content of the list elements never
affects the score. -/
theorem c2_scores_from_counts :
    (∀ a : Evaluator.Analysis,
       (Evaluator.calculate_scores a).map (fun p => (p.1, p.2.score)) =
         [("technical_skills",
            spec_score (Evaluator.lookup_analysis a "technical_skills").strengths.length
              (Evaluator.lookup_analysis a "technical_skills").areas_for_improvement.length),
          ("communication",
            spec_score (Evaluator.lookup_analysis a "communication").strengths.length
              (Evaluator.lookup_analysis a "communication").areas_for_improvement.length),
          ("problem_approach",
            spec_score (Evaluator.lookup_analysis a "problem_approach").strengths.length
              (Evaluator.lookup_analysis a "problem_approach").areas_for_improvement.length),
          ("collaboration",
            spec_score (Evaluator.lookup_analysis a "collaboration").strengths.length
              (Evaluator.lookup_analysis a "collaboration").areas_for_improvement.length)]) ∧
    (∀ a b : Evaluator.Analysis, Evaluator.counts_of a = Evaluator.counts_of b →
       Evaluator.calculate_scores a = Evaluator.calculate_scores b) := by
  constructor
  · intro a
    rfl
  · intro a b h
    have ha : Evaluator.calculate_scores a =
        Evaluator.scores_of_counts (Evaluator.counts_of a) := rfl
    have hb : Evaluator.calculate_scores b =
        Evaluator.scores_of_counts (Evaluator.counts_of b) := rfl
    rw [ha, hb, h]

/-- Witness for C2: two analyses whose lists have the same lengths but
different content receive identical scores. -/
theorem c2_scores_from_counts_witness :
    Evaluator.calculate_scores
        { technical_skills := some ⟨["identified the brute force", "optimized with a heap"],
            ["missed an edge case"], []⟩,
          communication := none, problem_approach := none, collaboration := none } =
      Evaluator.calculate_scores
        { technical_skills := some ⟨["a", "b"], ["c"], ["some example"]⟩,
          communication := none, problem_approach := none, collaboration := none } :=
  c2_scores_from_counts.2 _ _ (by decide)

/-- C3: `IntentGuardAgent.process_message` returns approved = False with an
empty output message exactly when `analyze_input` deems the input unsafe, and
approved = True with the message passed through unchanged otherwise; whenever
the injection-pattern score is at least 3, the input is blocked regardless of
the LLM verdict. -/
theorem c3_intent_guard_screening :
    ∀ (llm : Except String String) (message : String),
      ((IntentGuard.analyze_input llm message).is_safe = false →
         IntentGuard.process_message llm message =
           { approved := false, message := "",
             analysis := some (IntentGuard.analyze_input llm message),
             warning := some "Input blocked due to security concerns" }) ∧
      ((IntentGuard.analyze_input llm message).is_safe = true →
         IntentGuard.process_message llm message =
           { approved := true, message := message,
             analysis := some (IntentGuard.analyze_input llm message), warning := none }) ∧
      (3 ≤ IntentGuard.check_patterns message →
         (IntentGuard.process_message llm message).approved = false ∧
         (IntentGuard.process_message llm message).message = "") := by
  intro llm message
  refine ⟨?_, ?_, ?_⟩
  · intro h
    simp [IntentGuard.process_message, h]
  · intro h
    simp [IntentGuard.process_message, h]
  · intro h
    have hf : (IntentGuard.analyze_input llm message).is_safe = false := by
      simp [IntentGuard.analyze_input, h]
    simp [IntentGuard.process_message, hf]

/-- Witness for C3: a high-scoring injection attempt is blocked with an empty
message even though the LLM call failed, and a benign message with an
approving LLM passes through unchanged. -/
theorem c3_intent_guard_screening_witness :
    (IntentGuard.process_message (Except.error "down") "jailbreak prompt injection").approved
        = false ∧
    (IntentGuard.process_message (Except.error "down") "jailbreak prompt injection").message
        = "" ∧
    IntentGuard.process_message (Except.ok "SAFE|fine") "hello" =
      { approved := true, message := "hello",
        analysis := some (IntentGuard.analyze_input (Except.ok "SAFE|fine") "hello"),
        warning := none } := by
  refine ⟨((c3_intent_guard_screening (Except.error "down")
             "jailbreak prompt injection").2.2 (by decide)).1,
         ((c3_intent_guard_screening (Except.error "down")
             "jailbreak prompt injection").2.2 (by decide)).2,
         (c3_intent_guard_screening (Except.ok "SAFE|fine") "hello").2.1 (by decide)⟩

/-- C4: during an active session, when the workflow invocation raises any
exception, `process_message` returns status "error" with the fixed canned
string, carries the exception message, and nothing propagates; no other
field is set and no other recovery action exists in the function. -/
theorem c4_process_message_catches :
    ∀ (wf : Workflow.State → Except String Workflow.State) (current : Workflow.State)
      (user_input : String) (e : String),
      wf { current with user_input := user_input, error := none } = Except.error e →
      Workflow.process_message true wf current user_input =
        { status := some "error",
          message := some "I apologize, but I encountered a technical issue. Could you please try again?",
          stage := none, interview_complete := none, evaluation := none,
          error := some e } := by
  intro wf current user_input e h
  simp [Workflow.process_message, h]

/-- Witness for C4: a workflow that always raises yields the canned error
result. -/
theorem c4_process_message_catches_witness :
    Workflow.process_message true (fun _ => Except.error "boom") emptyState "hi" =
      { status := some "error",
        message := some "I apologize, but I encountered a technical issue. Could you please try again?",
        stage := none, interview_complete := none, evaluation := none,
        error := some "boom" } :=
  c4_process_message_catches (fun _ => Except.error "boom") emptyState "hi" "boom" rfl

/-- C5 (counterexample): when the remote fetch succeeds with data whose title
is not a curated one, `get_problem_by_difficulty` returns that title and the
remote identifier unchanged — the returned problem's title and identifier are
not always those of a curated entry on the successful-fetch path. -/
theorem c5_counterexample :
    (LeetCode.get_problem_by_difficulty lcBogusFetch 0 "easy").title = "Bogus Problem" ∧
    "Bogus Problem" ∉ lcAllCuratedTitles ∧
    (LeetCode.get_problem_by_difficulty lcBogusFetch 0 "easy").id = IdVal.str "999" := by
  refine ⟨rfl, by decide, rfl⟩

/-- C5 (amended): both clients select a problem from the static curated table
for the lowercased difficulty, defaulting to the "easy" table when the string
is not a key; when the static fallback is used the returned title and
identifier are those of the selected curated entry, and the Codeforces
identifier is the curated contest id + index even on a successful fetch; but
on a successful remote fetch the title (and, for LeetCode, also the
identifier) are taken from the remote response, unchecked against the curated
table. -/
theorem c5_curated_selection :
    ∀ (pick : Nat) (difficulty : String),
      LeetCode.selected_entry pick difficulty ∈ LeetCode.problems_for difficulty ∧
      (∀ fetch : String → Option LeetCode.QuestionData,
         fetch (LeetCode.selected_entry pick difficulty).slug = none →
         (LeetCode.get_problem_by_difficulty fetch pick difficulty).title =
           (LeetCode.selected_entry pick difficulty).title ∧
         (LeetCode.get_problem_by_difficulty fetch pick difficulty).id =
           IdVal.nat (LeetCode.selected_entry pick difficulty).id) ∧
      Codeforces.selected_entry pick difficulty ∈ Codeforces.problems_for difficulty ∧
      (∀ (st : Nat → Codeforces.StandingsOutcome)
         (ps : Option (List Codeforces.RemoteProblem)),
         Codeforces.fetch_problem_details st ps
             (Codeforces.selected_entry pick difficulty).contestId
             (Codeforces.selected_entry pick difficulty).index = none →
         (Codeforces.get_problem_by_difficulty st ps pick difficulty).title =
           (Codeforces.selected_entry pick difficulty).name) ∧
      (∀ (st : Nat → Codeforces.StandingsOutcome)
         (ps : Option (List Codeforces.RemoteProblem)),
         (Codeforces.get_problem_by_difficulty st ps pick difficulty).id =
           toString (Codeforces.selected_entry pick difficulty).contestId ++
             (Codeforces.selected_entry pick difficulty).index) := by
  intro pick difficulty
  refine ⟨lc_selected_mem pick difficulty, ?_, cf_selected_mem pick difficulty, ?_, ?_⟩
  · intro fetch h
    constructor
    · simp [LeetCode.get_problem_by_difficulty, h, LeetCode.get_fallback_problem]
    · simp [LeetCode.get_problem_by_difficulty, h, LeetCode.get_fallback_problem]
  · intro st ps h
    simp [Codeforces.get_problem_by_difficulty, h, Codeforces.get_fallback_problem]
  · intro st ps
    simp only [Codeforces.get_problem_by_difficulty]
    cases hf : Codeforces.fetch_problem_details st ps
        (Codeforces.selected_entry pick difficulty).contestId
        (Codeforces.selected_entry pick difficulty).index
    case none => rfl
    case some d => exact cf_fetch_id _ _ _ _ d hf

/-- Witness for C5: the "hard" difficulty with a failing fetch returns the
first hard curated problem of each client, and the Codeforces id stays the
curated contest id + index. -/
theorem c5_curated_selection_witness :
    (LeetCode.get_problem_by_difficulty (fun _ => none) 0 "hard").title =
      "Median of Two Sorted Arrays" ∧
    (LeetCode.get_problem_by_difficulty (fun _ => none) 0 "hard").id = IdVal.nat 4 ∧
    (Codeforces.get_problem_by_difficulty (fun _ => Codeforces.StandingsOutcome.excpt)
        none 0 "hard").title = "Kefa and Park" ∧
    (Codeforces.get_problem_by_difficulty (fun _ => Codeforces.StandingsOutcome.excpt)
        none 0 "hard").id = "580C" := by
  have h := c5_curated_selection 0 "hard"
  exact ⟨(h.2.1 (fun _ => none) rfl).1, (h.2.1 (fun _ => none) rfl).2,
         h.2.2.2.1 (fun _ => Codeforces.StandingsOutcome.excpt) none rfl,
         h.2.2.2.2 (fun _ => Codeforces.StandingsOutcome.excpt) none⟩

/-- C6: in the evaluation report, the overall score equals the sum of the
criteria's weighted scores divided by the sum of their weights, rounded to 2
decimal places (0 when the total weight is 0), and the overall rating follows
the fixed thresholds 4.5 / 3.5 / 2.5 / 1.5. -/
theorem c6_overall_score_rating :
    ∀ a : Evaluator.Analysis,
      (Evaluator.evaluate_interview a).overall_score =
        spec_overall (Evaluator.calculate_scores a) ∧
      (Evaluator.evaluate_interview a).overall_rating =
        spec_rating ((Evaluator.evaluate_interview a).overall_score) := by
  intro a
  constructor
  · show Evaluator.calculate_overall_score (Evaluator.calculate_scores a) =
      spec_overall (Evaluator.calculate_scores a)
    have hmap : (Evaluator.calculate_scores a).map (fun p => p.2.weight) =
        [0.4, 0.25, 0.2, 0.15] := rfl
    have hw : ((Evaluator.calculate_scores a).map fun p => p.2.weight).sum = 1 := by
      rw [hmap]
      norm_num
    simp only [Evaluator.calculate_overall_score, spec_overall, hw]
    norm_num
  · rfl

/-- C7: running the compiled graph (entry security-check, conditional-edge
tables, fuel covering every path) produces, for every node environment and
input state, exactly the final state of the claimed if/elif dispatcher. -/
theorem c7_graph_equals_dispatcher :
    ∀ (env : Workflow.Env) (s : Workflow.State),
      Workflow.run_workflow env s = some (spec_dispatcher env s) := by
  intro env s
  by_cases h1 : Workflow.sec_approved (env.securityNode s) = true
  · by_cases h2 : Workflow.guard_appropriate (env.guardrailsNode (env.securityNode s)) = true
    · by_cases h3 : Workflow.err_truthy
          (env.interviewNode (env.guardrailsNode (env.securityNode s))) = true
      · simp [Workflow.run_workflow, Workflow.runG, Workflow.run_node, Workflow.next_of,
              Workflow.route_after_security, Workflow.route_after_guardrails,
              Workflow.route_after_interview, Workflow.security_edges,
              Workflow.guardrails_edges, Workflow.interview_edges, spec_dispatcher,
              h1, h2, h3]
      · by_cases h4 : (env.interviewNode
            (env.guardrailsNode (env.securityNode s))).interview_complete = true
        · simp [Workflow.run_workflow, Workflow.runG, Workflow.run_node, Workflow.next_of,
                Workflow.route_after_security, Workflow.route_after_guardrails,
                Workflow.route_after_interview, Workflow.security_edges,
                Workflow.guardrails_edges, Workflow.interview_edges, spec_dispatcher,
                h1, h2, h3, h4]
        · simp [Workflow.run_workflow, Workflow.runG, Workflow.run_node, Workflow.next_of,
                Workflow.route_after_security, Workflow.route_after_guardrails,
                Workflow.route_after_interview, Workflow.security_edges,
                Workflow.guardrails_edges, Workflow.interview_edges, spec_dispatcher,
                h1, h2, h3, h4]
    · by_cases h3 : Workflow.guard_needs_redirect
          (env.guardrailsNode (env.securityNode s)) = true
      · simp [Workflow.run_workflow, Workflow.runG, Workflow.run_node, Workflow.next_of,
              Workflow.route_after_security, Workflow.route_after_guardrails,
              Workflow.security_edges, Workflow.guardrails_edges, spec_dispatcher,
              h1, h2, h3]
      · simp [Workflow.run_workflow, Workflow.runG, Workflow.run_node, Workflow.next_of,
              Workflow.route_after_security, Workflow.route_after_guardrails,
              Workflow.security_edges, Workflow.guardrails_edges, spec_dispatcher,
              h1, h2, h3]
  · simp [Workflow.run_workflow, Workflow.runG, Workflow.run_node, Workflow.next_of,
          Workflow.route_after_security, Workflow.security_edges, spec_dispatcher, h1]

/-- C8 (code bug evidence): both screening agents do fail open on LLM failure
— `_llm_security_check` reports safe with risk score 1 and
`_llm_appropriateness_check` reports appropriate with confidence 0.3.  But a
message whose inappropriate-content pattern score is between 1 and 3 (here
"hate", score 2, coherent) does not pass the guardrails screen as the claim
says: building the result dict calls `_get_primary_reason`, which indexes the
missing "reason" key of the pattern-check dict and raises KeyError.  A
message with pattern score 0 does pass. -/
theorem c8_fail_open_keyerror :
    IntentGuard.llm_security_check (Except.error "boom") =
      { is_safe := true, risk_score := 1,
        reason := "LLM analysis failed, assuming safe: boom" } ∧
    Guardrails.llm_appropriateness_check (Except.error "boom") =
      { appropriate := true, confidence := 0.3,
        reason := "LLM check failed, assuming appropriate: boom" } ∧
    (Guardrails.check_inappropriate_patterns "hate").score = 2 ∧
    (Guardrails.check_coherence "hate").appropriate = true ∧
    Guardrails.check_response (Except.error "boom") 0 "hate"
        "Interview stage: technical_questions" =
      Except.error "KeyError: reason" ∧
    (Guardrails.check_response (Except.error "boom") 0 "I enjoy algorithms"
        "Interview stage: technical_questions").map (fun g => g.appropriate) =
      Except.ok true := by
  refine ⟨rfl, rfl, by decide, by decide, rfl, rfl⟩

/-- C9: `handle_inappropriate_response` increments the reset counter on every
call; while the incremented counter is below 3 it redirects with
attempts_remaining = 3 - counter, and once the counter reaches 3 it ends the
interview, upon which the response-generation node marks the interview
complete. -/
theorem c9_redirect_limit :
    ∀ (resets pick : Nat) (message reason : String),
      (Guardrails.handle_inappropriate_response resets pick message reason).1 = resets + 1 ∧
      (resets + 1 < Guardrails.max_resets →
        (Guardrails.handle_inappropriate_response resets pick message reason).2.action =
          "redirect" ∧
        (Guardrails.handle_inappropriate_response resets pick message reason).2.attempts_remaining =
          some (Guardrails.max_resets - (resets + 1))) ∧
      (Guardrails.max_resets ≤ resets + 1 →
        (Guardrails.handle_inappropriate_response resets pick message reason).2.action =
          "end_interview") ∧
      (∀ s : Workflow.State, Workflow.guard_needs_redirect s = true →
        Guardrails.max_resets ≤ resets + 1 →
        (Workflow.generate_response_node resets pick s).2.interview_complete = true) := by
  intro resets pick message reason
  refine ⟨?_, ?_, ?_, ?_⟩
  · simp only [Guardrails.handle_inappropriate_response]
    split <;> rfl
  · intro h
    have hn : ¬ Guardrails.max_resets ≤ resets + 1 := by omega
    simp [Guardrails.handle_inappropriate_response, hn]
  · intro h
    simp [Guardrails.handle_inappropriate_response, h]
  · intro s hs h
    simp [Workflow.generate_response_node, hs, Guardrails.handle_inappropriate_response, h]

/-- Witness for C9: the first call redirects with two attempts remaining, the
third call ends the interview, and the response-generation node then marks
the interview complete. -/
theorem c9_redirect_limit_witness :
    (Guardrails.handle_inappropriate_response 0 0 "m" "off topic").2.action = "redirect" ∧
    (Guardrails.handle_inappropriate_response 0 0 "m" "off topic").2.attempts_remaining =
      some 2 ∧
    (Guardrails.handle_inappropriate_response 2 0 "m" "off topic").2.action =
      "end_interview" ∧
    (Workflow.generate_response_node 2 0 redirectState).2.interview_complete = true := by
  refine ⟨((c9_redirect_limit 0 0 "m" "off topic").2.1 (by decide)).1,
         ((c9_redirect_limit 0 0 "m" "off topic").2.1 (by decide)).2,
         (c9_redirect_limit 2 0 "m" "off topic").2.2.1 (by decide),
         (c9_redirect_limit 2 0 "m" "off topic").2.2.2 redirectState (by decide) (by decide)⟩

/-- C10: a blank (empty or whitespace-only) user input makes both check nodes
skip their agents entirely — the node results do not depend on the LLM
oracles — and record the turn as approved and appropriate, so the routing
sends the turn past both screens into the interview step. -/
theorem c10_blank_input_skips_screens :
    ∀ (llm1 llm2 : Except String String) (p1 p2 : Nat) (s : Workflow.State),
      Workflow.isBlank s.user_input = true →
      Workflow.security_check_node llm1 s = Workflow.security_check_node llm2 s ∧
      (Workflow.security_check_node llm1 s).security_check =
        some ⟨true, s.user_input, none, none⟩ ∧
      Workflow.guardrails_check_node llm1 p1 s = Workflow.guardrails_check_node llm2 p2 s ∧
      Workflow.guardrails_check_node llm1 p1 s =
        Except.ok ({ s with guardrails_check := some ⟨true, none, none, none, none⟩ }) ∧
      Workflow.route_after_security (Workflow.security_check_node llm1 s) = "safe" ∧
      (∀ s2, Workflow.guardrails_check_node llm1 p1 s = Except.ok s2 →
         Workflow.route_after_guardrails s2 = "appropriate" ∧
         Workflow.guardrails_edges (Workflow.route_after_guardrails s2) =
           some Workflow.Node.interview_process) := by
  intro llm1 llm2 p1 p2 s hb
  have hsec : Workflow.security_check_node llm1 s =
      { s with security_check := some ⟨true, s.user_input, none, none⟩ } := by
    simp [Workflow.security_check_node, hb]
  have hguard : Workflow.guardrails_check_node llm1 p1 s =
      Except.ok ({ s with guardrails_check := some ⟨true, none, none, none, none⟩ }) := by
    simp [Workflow.guardrails_check_node, hb]
  refine ⟨?_, ?_, ?_, hguard, ?_, ?_⟩
  · simp [Workflow.security_check_node, hb]
  · rw [hsec]
  · simp [Workflow.guardrails_check_node, hb]
  · rw [hsec]
    simp [Workflow.route_after_security, Workflow.sec_approved]
  · intro s2 h2
    rw [hguard] at h2
    have hs2 : s2 = { s with guardrails_check := some ⟨true, none, none, none, none⟩ } := by
      cases h2
      rfl
    subst hs2
    constructor
    · simp [Workflow.route_after_guardrails, Workflow.guard_appropriate]
    · simp [Workflow.route_after_guardrails, Workflow.guard_appropriate,
            Workflow.guardrails_edges]

/-- Witness for C10: with an empty input the security node's result is the
same for a failing LLM and for one that answers UNSAFE, and the turn routes
"safe". -/
theorem c10_blank_input_skips_screens_witness :
    Workflow.security_check_node (Except.error "x") emptyState =
      Workflow.security_check_node (Except.ok "UNSAFE|bad") emptyState ∧
    Workflow.route_after_security
      (Workflow.security_check_node (Except.error "x") emptyState) = "safe" := by
  exact ⟨(c10_blank_input_skips_screens (Except.error "x") (Except.ok "UNSAFE|bad")
            0 1 emptyState (by decide)).1,
         (c10_blank_input_skips_screens (Except.error "x") (Except.ok "UNSAFE|bad")
            0 1 emptyState (by decide)).2.2.2.2.1⟩
